import Mathlib

/-!
# Verification of the foxtrot-rapier locomotion core

Shallow embedding of `src/movement/general_movement.rs`,
`src/movement/character_controller/components.rs` and `src/system_set.rs`.
Scalars are idealised as rationals (the source uses `f32`); vectors are
`Vec3` records of rationals.  External collaborators (the rapier shape
cast, the Bevy ECS stores) appear as explicit parameters.
-/

namespace Foxtrot

/-- A 3-vector with rational components, standing in for glam's `Vec3`. -/
structure Vec3 where
  x : ℚ
  y : ℚ
  z : ℚ
deriving DecidableEq, Repr

instance : Zero Vec3 := ⟨⟨0, 0, 0⟩⟩

instance : Add Vec3 := ⟨fun a b => ⟨a.x + b.x, a.y + b.y, a.z + b.z⟩⟩

instance : Sub Vec3 := ⟨fun a b => ⟨a.x - b.x, a.y - b.y, a.z - b.z⟩⟩

instance : Neg Vec3 := ⟨fun a => ⟨-a.x, -a.y, -a.z⟩⟩

instance : SMul ℚ Vec3 := ⟨fun k a => ⟨k * a.x, k * a.y, k * a.z⟩⟩

/-- `Vec3 * f32` componentwise scaling, as used by the source. -/
instance : HMul Vec3 ℚ Vec3 := ⟨fun a k => ⟨a.x * k, a.y * k, a.z * k⟩⟩

/-- `f32 * Vec3` componentwise scaling, as used by the source. -/
instance : HMul ℚ Vec3 Vec3 := ⟨fun k a => ⟨k * a.x, k * a.y, k * a.z⟩⟩

/-- `Vec3 / f32` componentwise division, as used by the source. -/
instance : HDiv Vec3 ℚ Vec3 := ⟨fun a k => ⟨a.x / k, a.y / k, a.z / k⟩⟩

/-- glam's `Vec3::dot`. -/
def Vec3.dot (a b : Vec3) : ℚ :=
  a.x * b.x + a.y * b.y + a.z * b.z

/-- glam's `Vec3::length_squared`, i.e. `self.dot(self)`. -/
def Vec3.length_squared (v : Vec3) : ℚ :=
  v.dot v

/-- Result of splitting a vector along an up axis: the component parallel
to `up` (`vertical`) and the rest (`horizontal`). -/
structure SplitVec3 where
  vertical : Vec3
  horizontal : Vec3
deriving DecidableEq, Repr

/-- Modelled from the spec: the file `util/trait_extension.rs` defining
`Vec3Ext::split` is not under `src/`.  Per the spec glossary,
"Horizontal/vertical decomposition: splitting a vector into components
parallel and orthogonal to the character's up axis": the vertical part is
the projection `up * self.dot(up)` onto the (unit) up axis and the
horizontal part is the remainder. -/
def Vec3.split (v up : Vec3) : SplitVec3 :=
  let vertical : Vec3 := up * v.dot up
  let horizontal : Vec3 := v - vertical
  ⟨vertical, horizontal⟩

/-- Modelled from the spec: `Vec3Ext::is_approx_zero` from the missing
`util/trait_extension.rs`; the spec (§4.5) calls for an
"approximately-zero test, not exact zero, to avoid flicker from
floating-point noise", so we compare the squared length against a small
fixed threshold. -/
def Vec3.is_approx_zero (v : Vec3) : Bool :=
  decide (v.length_squared < 1 / 100000)

theorem Vec3.ext_iff (a b : Vec3) : a = b ↔ a.x = b.x ∧ a.y = b.y ∧ a.z = b.z := by
  cases a
  cases b
  simp

@[simp]
theorem Vec3.add_def (a b : Vec3) : a + b = ⟨a.x + b.x, a.y + b.y, a.z + b.z⟩ := rfl

@[simp]
theorem Vec3.sub_def (a b : Vec3) : a - b = ⟨a.x - b.x, a.y - b.y, a.z - b.z⟩ := rfl

@[simp]
theorem Vec3.neg_def (a : Vec3) : -a = ⟨-a.x, -a.y, -a.z⟩ := rfl

@[simp]
theorem Vec3.smul_def (k : ℚ) (a : Vec3) : k • a = ⟨k * a.x, k * a.y, k * a.z⟩ := rfl

@[simp]
theorem Vec3.mul_scalar_def (a : Vec3) (k : ℚ) : a * k = ⟨a.x * k, a.y * k, a.z * k⟩ := rfl

@[simp]
theorem Vec3.scalar_mul_def (k : ℚ) (a : Vec3) : k * a = ⟨k * a.x, k * a.y, k * a.z⟩ := rfl

@[simp]
theorem Vec3.div_scalar_def (a : Vec3) (k : ℚ) : a / k = ⟨a.x / k, a.y / k, a.z / k⟩ := rfl

@[simp]
theorem Vec3.zero_def : (0 : Vec3) = ⟨0, 0, 0⟩ := rfl

theorem Vec3.dot_self_nonneg (v : Vec3) : 0 ≤ v.dot v := by
  unfold Vec3.dot
  nlinarith [mul_self_nonneg v.x, mul_self_nonneg v.y, mul_self_nonneg v.z]

theorem Vec3.dot_self_eq_zero_iff (v : Vec3) : v.dot v = 0 ↔ v = 0 := by
  unfold Vec3.dot
  constructor
  · intro h
    have hx : v.x = 0 := by nlinarith [mul_self_nonneg v.x, mul_self_nonneg v.y, mul_self_nonneg v.z]
    have hy : v.y = 0 := by nlinarith [mul_self_nonneg v.x, mul_self_nonneg v.y, mul_self_nonneg v.z]
    have hz : v.z = 0 := by nlinarith [mul_self_nonneg v.x, mul_self_nonneg v.y, mul_self_nonneg v.z]
    rw [Vec3.ext_iff]
    exact ⟨hx, hy, hz⟩
  · rintro rfl
    simp

/-- Under a unit up axis, the horizontal part of a split is orthogonal to `up`. -/
theorem Vec3.split_horizontal_dot_up (v up : Vec3) (hup : up.dot up = 1) :
    (v.split up).horizontal.dot up = 0 := by
  simp only [Vec3.split, Vec3.dot, Vec3.mul_scalar_def, Vec3.sub_def] at *
  linear_combination (-(v.x * up.x + v.y * up.y + v.z * up.z)) * hup

/-- Adding any multiple of a unit `up` to a vector leaves its horizontal split part unchanged. -/
theorem Vec3.split_horizontal_add_up (v up : Vec3) (c : ℚ) (hup : up.dot up = 1) :
    ((v + c • up).split up).horizontal = (v.split up).horizontal := by
  simp only [Vec3.split, Vec3.dot, Vec3.mul_scalar_def, Vec3.sub_def, Vec3.add_def,
    Vec3.smul_def, Vec3.mk.injEq] at *
  refine ⟨?_, ?_, ?_⟩
  · linear_combination (-(c * up.x)) * hup
  · linear_combination (-(c * up.y)) * hup
  · linear_combination (-(c * up.z)) * hup

/-- Splitting is idempotent on horizontal parts when `up` is a unit vector. -/
theorem Vec3.split_horizontal_idem (v up : Vec3) (hup : up.dot up = 1) :
    ((v.split up).horizontal.split up).horizontal = (v.split up).horizontal := by
  simp only [Vec3.split, Vec3.dot, Vec3.mul_scalar_def, Vec3.sub_def, Vec3.mk.injEq] at *
  refine ⟨?_, ?_, ?_⟩
  · linear_combination (up.x * (v.x * up.x + v.y * up.y + v.z * up.z)) * hup
  · linear_combination (up.y * (v.x * up.x + v.y * up.y + v.z * up.z)) * hup
  · linear_combination (up.z * (v.x * up.x + v.y * up.y + v.z * up.z)) * hup

/-! ## Component data model -/

/-- Modelled from the spec: the component file `movement/general_movement/components.rs`
declared by `mod components;` is not under `src/`.  Per the spec's data model the
`grounded: bool` flag is only ever set by the Grounding Detector via `force_set`
and read via `is_grounded`. -/
structure Grounded where
  grounded : Bool
deriving DecidableEq, Repr

/-- Modelled from the spec: read accessor for the grounded flag. -/
def Grounded.is_grounded (g : Grounded) : Bool :=
  g.grounded

/-- Modelled from the spec: `force_set` writes the grounded flag (the source's
change-detection wrapper only affects downstream dirty flags, not the value). -/
def Grounded.force_set (_g : Grounded) (value : Bool) : Grounded :=
  ⟨value⟩

/-- Modelled from the spec: the `Walking` component of the missing
`movement/general_movement/components.rs`.  `src`'s `apply_walking` reads
`direction` (via `get_acceleration`), `stopping_speed` and
`braking_acceleration`; the spec's data model adds the target speed. -/
structure Walking where
  speed : ℚ
  direction : Option Vec3
  stopping_speed : ℚ
  braking_acceleration : ℚ
deriving DecidableEq, Repr

/-- Modelled from the spec: `Walking::get_acceleration` from the missing
component file.  Per §4.2 a `Some(direction)` yields a walking acceleration
along that direction (the spec keeps its magnitude qualitative — "chosen so
the character approaches `target_speed`" — here the raw direction scaled by
`speed`); a `None` direction yields no walking acceleration.  Only the
`None` case is load-bearing for the claims below. -/
def Walking.get_acceleration (w : Walking) (_grounded : Bool) : Option Vec3 :=
  w.direction.map (fun direction => direction * w.speed)

/-- Modelled from the spec: the `Jumping` component of the missing component
file.  `src`'s `apply_jumping` reads its precomputed launch `speed` (the spec
derives it from the target height once, outside the resolver) and the
one-shot `requested` flag. -/
structure Jumping where
  speed : ℚ
  requested : Bool
deriving DecidableEq, Repr

/-- `Sprinting` from `src/movement/character_controller/components.rs`. -/
structure Sprinting where
  multiplier : ℚ
  requested : Bool
deriving DecidableEq, Repr

/-- Default `Sprinting` from the source: multiplier 1.5, not requested. -/
instance : Inhabited Sprinting := ⟨⟨3 / 2, false⟩⟩

/-- bevy_rapier's `ExternalForce` accumulator: a force and a torque,
both zero by default. -/
structure ExternalForce where
  force : Vec3
  torque : Vec3
deriving DecidableEq, Repr

instance : Inhabited ExternalForce := ⟨⟨0, 0⟩⟩

/-- bevy_rapier's `ExternalImpulse` accumulator, zero by default. -/
structure ExternalImpulse where
  impulse : Vec3
  torque_impulse : Vec3
deriving DecidableEq, Repr

instance : Inhabited ExternalImpulse := ⟨⟨0, 0⟩⟩

/-- bevy_rapier's `Velocity`: linear and angular velocity. -/
structure Velocity where
  linvel : Vec3
  angvel : Vec3
deriving DecidableEq, Repr

/-- `CharacterAnimations` holds the three clip handles; its definition lives in
the missing component file, but its fields are fixed by the construction site
in `src/level_instantiation/spawning/objects/player.rs` (idle, walk, aerial).
Clip handles are opaque; we use naturals. -/
structure CharacterAnimations where
  idle : ℕ
  walk : ℕ
  aerial : ℕ
deriving DecidableEq, Repr

/-- Bevy's `AnimationPlayer`, reduced to the observable effect the source
uses: `play(clip).repeat()` records the clip being played. -/
structure AnimationPlayer where
  playing : Option ℕ
deriving DecidableEq, Repr

/-- `play(clip)` on an animation player (`.repeat()` only loops the clip). -/
def AnimationPlayer.play (_p : AnimationPlayer) (clip : ℕ) : AnimationPlayer :=
  ⟨some clip⟩

/-! ## Systems of `src/movement/general_movement.rs` -/

/-- A hit reported by rapier's `cast_shape`: the hit entity and time of impact. -/
structure CastHit where
  entity : ℕ
  toi : ℚ
deriving DecidableEq, Repr

/-- `update_grounded`, per character.  The rapier shape cast (an external
collaborator) is passed in as `cast_result`; `names` is the `Query<&Name>`
store.  The source computes `falling`, guards the "set not grounded" branch
with `!falling && false` (a dead branch), and on a cast hit unwraps the hit
entity's `Name` (modelled as `none` = panic) before `force_set(true)`;
without a hit the grounded flag is left untouched. -/
def update_grounded (names : ℕ → Option String) (cast_result : Option CastHit)
    (velocity : Velocity) (up : Vec3) (grounded : Grounded) : Option Grounded :=
  let falling : Bool := decide (velocity.linvel.dot up < -(1 / 100000))
  if !falling && false then
    some (grounded.force_set false)
  else
    match cast_result with
    | some hit =>
      match names hit.entity with
      | some _name => some (grounded.force_set true)
      | none => none
    | none => some grounded

/-- The per-character movement components touched by `reset_movement_components`
(plus `Sprinting`, which that system does not query). -/
structure MovementComponents where
  external_force : ExternalForce
  external_impulse : ExternalImpulse
  walking : Walking
  jumping : Jumping
  sprinting : Sprinting
deriving DecidableEq, Repr

/-- `reset_movement_components`, per character: zero the force and impulse
accumulators (`*force = default()`, `*impulse = default()`), clear the walk
direction and the jump request.  No query touches `Sprinting`. -/
def reset_movement_components (c : MovementComponents) : MovementComponents :=
  { c with
    external_force := default
    external_impulse := default
    walking := { c.walking with direction := none }
    jumping := { c.jumping with requested := false } }

/-- `apply_jumping`, per character: when a jump is requested and the character
is grounded, add `up * mass * jump.speed / dt` to the force accumulator and
replace the linear velocity by the horizontal part of its split along `up`. -/
def apply_jumping (dt : ℚ) (grounded : Grounded) (force : ExternalForce)
    (velocity : Velocity) (mass : ℚ) (jump : Jumping) (up : Vec3) :
    ExternalForce × Velocity :=
  if jump.requested && grounded.is_grounded then
    let force' := { force with force := force.force + up * mass * jump.speed / dt }
    let velocity_components := velocity.linvel.split up
    (force', { velocity with linvel := velocity_components.horizontal })
  else
    (force, velocity)

/-- `apply_walking`, per character.  glam's `try_normalize` needs a square
root, which ℚ lacks, so it is passed in as a parameter; the claims constrain
it to glam's contract (a unit-length positive multiple of its argument).
With an acceleration from the walk intent, append `acceleration * mass`;
otherwise, when grounded, either snap the velocity to its vertical split part
(squared horizontal speed under the squared stopping speed) or append the
braking force `braking_acceleration * braking_direction * mass`. -/
def apply_walking (try_normalize : Vec3 → Option Vec3) (force : ExternalForce)
    (walking : Walking) (velocity : Velocity) (grounded : Grounded) (mass : ℚ)
    (up : Vec3) : ExternalForce × Velocity :=
  match walking.get_acceleration grounded.is_grounded with
  | some acceleration =>
    let walking_force := acceleration * mass
    ({ force with force := force.force + walking_force }, velocity)
  | none =>
    if grounded.is_grounded then
      let velocity_components := velocity.linvel.split up
      if velocity_components.horizontal.length_squared
          < walking.stopping_speed * walking.stopping_speed then
        (force, { velocity with linvel := velocity_components.vertical })
      else
        match (try_normalize velocity_components.horizontal).map (fun v => -v) with
        | some braking_direction =>
          let braking_force := walking.braking_acceleration * braking_direction * mass
          ({ force with force := force.force + braking_force }, velocity)
        | none => (force, velocity)
    else
      (force, velocity)

/-- The inputs `play_animations` reads per character. -/
structure AnimCharacter where
  velocity : Velocity
  up : Vec3
  grounded : Grounded
  animation_entity_link : ℕ
  animations : CharacterAnimations
deriving DecidableEq, Repr

/-- The clip `play_animations` chooses for one character: aerial when not
grounded, walk when there is (approximately nonzero) horizontal movement,
idle otherwise. -/
def animationClip (velocity : Velocity) (up : Vec3) (grounded : Grounded)
    (animations : CharacterAnimations) : ℕ :=
  let has_horizontal_movement := !(velocity.linvel.split up).horizontal.is_approx_zero
  if !grounded.is_grounded then
    animations.aerial
  else if has_horizontal_movement then
    animations.walk
  else
    animations.idle

/-- The `Query<&mut AnimationPlayer>` store, as an association list. -/
abbrev PlayerStore := List (ℕ × AnimationPlayer)

/-- Look an animation player up in the store (`get_mut`). -/
def lookupPlayer (store : PlayerStore) (entity : ℕ) : Option AnimationPlayer :=
  (store.find? (fun e => e.1 = entity)).map (fun e => e.2)

/-- Write an animation player back into the store. -/
def setPlayer (store : PlayerStore) (entity : ℕ) (p : AnimationPlayer) : PlayerStore :=
  store.map (fun e => if e.1 = entity then (e.1, p) else e)

/-- `play_animations`: iterate over the characters; for each, resolve the
animation player behind its `AnimationEntityLink` — with `context(...)?`, a
missing player aborts the system with an error (later logged by the
`log_errors` pipe) — then play the clip selected from the grounded flag and
the horizontal movement. -/
def play_animations (store : PlayerStore) : List AnimCharacter → Except String PlayerStore
  | [] => Except.ok store
  | c :: rest =>
    match lookupPlayer store c.animation_entity_link with
    | none => Except.error "animation_entity_link held entity without animation player"
    | some player =>
      let clip := animationClip c.velocity c.up c.grounded c.animations
      play_animations (setPlayer store c.animation_entity_link (player.play clip)) rest

/-! ## Declared scheduling constraints

`src/system_set.rs` configures two chains of system sets (one in `Update`,
one in `PostUpdate`, the latter sandwiched between the rapier writeback and
Bevy's transform propagation), and `GeneralMovementPlugin::build` in
`src/movement/general_movement.rs` adds its five systems with the single
ordering annotation `apply_walking.after(update_grounded)`. -/

/-- Every system or system set mentioned by an ordering constraint declared
in the source. -/
inductive SystemNode
  | gltfBlueprintsAfterSpawn
  | yarnSpinner
  | colliderSpawn
  | navigation
  | playerEmbodiment
  | generalMovement
  | playAnimation
  | updateInteractionOpportunities
  | dialog
  | exampleDialogueView
  | cameraUpdate
  | dollyUpdate
  | physicsWriteback
  | transformPropagate
  | updateGroundedSystem
  | applyWalkingSystem
  | applyJumpingSystem
  | resetMovementComponentsSystem
  | playAnimationsSystem
deriving DecidableEq, Repr

/-- The before/after edges declared in the source: the ten-element `Update`
chain of `src/system_set.rs`, the `PostUpdate` configuration
`(CameraUpdate, DollyUpdateSet).chain().after(PhysicsSet::Writeback).before(TransformPropagate)`
(`after`/`before` on a tuple applies to each member), and
`apply_walking.after(update_grounded)` from `GeneralMovementPlugin::build`.
The plugin's other systems (`apply_jumping`, `reset_movement_components`,
`play_animations`) carry no ordering annotation. -/
def declared_edges : List (SystemNode × SystemNode) :=
  [(SystemNode.gltfBlueprintsAfterSpawn, SystemNode.yarnSpinner),
   (SystemNode.yarnSpinner, SystemNode.colliderSpawn),
   (SystemNode.colliderSpawn, SystemNode.navigation),
   (SystemNode.navigation, SystemNode.playerEmbodiment),
   (SystemNode.playerEmbodiment, SystemNode.generalMovement),
   (SystemNode.generalMovement, SystemNode.playAnimation),
   (SystemNode.playAnimation, SystemNode.updateInteractionOpportunities),
   (SystemNode.updateInteractionOpportunities, SystemNode.dialog),
   (SystemNode.dialog, SystemNode.exampleDialogueView),
   (SystemNode.cameraUpdate, SystemNode.dollyUpdate),
   (SystemNode.physicsWriteback, SystemNode.cameraUpdate),
   (SystemNode.physicsWriteback, SystemNode.dollyUpdate),
   (SystemNode.cameraUpdate, SystemNode.transformPropagate),
   (SystemNode.dollyUpdate, SystemNode.transformPropagate),
   (SystemNode.updateGroundedSystem, SystemNode.applyWalkingSystem)]

/-- `a` is constrained to run before `b`: transitive closure of the declared
edges. -/
def declared_before (a b : SystemNode) : Prop :=
  Relation.TransGen (fun x y => (x, y) ∈ declared_edges) a b

/-! ## Further dot-product algebra -/

theorem Vec3.smul_dot (k : ℚ) (a b : Vec3) : (k • a).dot b = k * a.dot b := by
  simp only [Vec3.smul_def, Vec3.dot]
  ring

theorem Vec3.dot_smul (k : ℚ) (a b : Vec3) : a.dot (k • b) = k * a.dot b := by
  simp only [Vec3.smul_def, Vec3.dot]
  ring

theorem Vec3.neg_dot (a b : Vec3) : (-a).dot b = -(a.dot b) := by
  simp only [Vec3.neg_def, Vec3.dot]
  ring

theorem Vec3.neg_dot_neg (a b : Vec3) : (-a).dot (-b) = a.dot b := by
  simp only [Vec3.neg_def, Vec3.dot]
  ring

theorem Vec3.length_squared_def (v : Vec3) : v.length_squared = v.dot v := rfl

/-- The vertical split part has no horizontal split part (unit `up`). -/
theorem Vec3.split_vertical_horizontal (v up : Vec3) (hup : up.dot up = 1) :
    ((v.split up).vertical.split up).horizontal = 0 := by
  simp only [Vec3.split, Vec3.dot, Vec3.mul_scalar_def, Vec3.sub_def, Vec3.zero_def,
    Vec3.mk.injEq] at *
  refine ⟨?_, ?_, ?_⟩
  · linear_combination (-(up.x * (v.x * up.x + v.y * up.y + v.z * up.z))) * hup
  · linear_combination (-(up.y * (v.x * up.x + v.y * up.y + v.z * up.z))) * hup
  · linear_combination (-(up.z * (v.x * up.x + v.y * up.y + v.z * up.z))) * hup

/-! ## Branch lemmas -/

/-- When the jump is requested and the character grounded, `apply_jumping`
takes its only active branch. -/
theorem apply_jumping_requested_grounded (dt mass : ℚ) (up : Vec3) (jump : Jumping)
    (grounded : Grounded) (force : ExternalForce) (velocity : Velocity)
    (h : (jump.requested && grounded.is_grounded) = true) :
    apply_jumping dt grounded force velocity mass jump up
      = ({ force with force := force.force + up * mass * jump.speed / dt },
         { velocity with linvel := (velocity.linvel.split up).horizontal }) := by
  unfold apply_jumping
  rw [h]
  simp

/-- Without both a request and the grounded flag, `apply_jumping` is the
identity on the force and the velocity. -/
theorem apply_jumping_not_engaged (dt mass : ℚ) (up : Vec3) (jump : Jumping)
    (grounded : Grounded) (force : ExternalForce) (velocity : Velocity)
    (h : (jump.requested && grounded.is_grounded) = false) :
    apply_jumping dt grounded force velocity mass jump up = (force, velocity) := by
  unfold apply_jumping
  rw [h]
  simp

/-- When the walk intent yields no acceleration, the character is grounded
and the squared horizontal speed is under the squared stopping speed,
`apply_walking` snaps the velocity to its vertical split part. -/
theorem apply_walking_snap (try_normalize : Vec3 → Option Vec3) (force : ExternalForce)
    (walking : Walking) (velocity : Velocity) (grounded : Grounded) (mass : ℚ) (up : Vec3)
    (hacc : walking.get_acceleration grounded.is_grounded = none)
    (hgr : grounded.is_grounded = true)
    (hlt : (velocity.linvel.split up).horizontal.length_squared
        < walking.stopping_speed * walking.stopping_speed) :
    apply_walking try_normalize force walking velocity grounded mass up
      = (force, { velocity with linvel := (velocity.linvel.split up).vertical }) := by
  unfold apply_walking
  rw [hacc]
  simp [hgr, hlt]

/-- When the walk intent yields no acceleration, the character is grounded,
the squared horizontal speed is at least the squared stopping speed and the
horizontal velocity normalizes to `n`, `apply_walking` appends the braking
force `braking_acceleration * (-n) * mass`. -/
theorem apply_walking_brake (try_normalize : Vec3 → Option Vec3) (force : ExternalForce)
    (walking : Walking) (velocity : Velocity) (grounded : Grounded) (mass : ℚ) (up : Vec3)
    (n : Vec3)
    (hacc : walking.get_acceleration grounded.is_grounded = none)
    (hgr : grounded.is_grounded = true)
    (hge : ¬ (velocity.linvel.split up).horizontal.length_squared
        < walking.stopping_speed * walking.stopping_speed)
    (hn : try_normalize (velocity.linvel.split up).horizontal = some n) :
    apply_walking try_normalize force walking velocity grounded mass up
      = ({ force with force := force.force + walking.braking_acceleration * (-n) * mass },
         velocity) := by
  unfold apply_walking
  rw [hacc]
  simp [hgr, hge, hn]

/-! ## Claims -/

/-- C1: for every character with a jump requested and `grounded == true`,
`apply_jumping` adds `up * mass * launch_speed / dt` to the force
accumulator and sets the linear velocity to its horizontal component only —
the component parallel to `up` is zeroed, the component orthogonal to `up`
is preserved — so the vertical velocity immediately after impulse resolution
is independent of the pre-jump vertical velocity. -/
theorem C1_apply_jumping_impulse (dt mass : ℚ) (up : Vec3) (jump : Jumping)
    (grounded : Grounded) (force : ExternalForce) (velocity : Velocity)
    (hup : up.dot up = 1) (hreq : jump.requested = true)
    (hgr : grounded.is_grounded = true) :
    let r := apply_jumping dt grounded force velocity mass jump up
    r.1.force = force.force + up * mass * jump.speed / dt ∧
    r.2.linvel = (velocity.linvel.split up).horizontal ∧
    r.2.linvel.dot up = 0 ∧
    (r.2.linvel.split up).horizontal = (velocity.linvel.split up).horizontal ∧
    (∀ c : ℚ,
      (apply_jumping dt grounded force
          { velocity with linvel := velocity.linvel + c • up } mass jump up).2.linvel
        = r.2.linvel) := by
  intro r
  have hcond : (jump.requested && grounded.is_grounded) = true := by
    rw [hreq, hgr]
    rfl
  have hr : r = ({ force with force := force.force + up * mass * jump.speed / dt },
      { velocity with linvel := (velocity.linvel.split up).horizontal }) :=
    apply_jumping_requested_grounded dt mass up jump grounded force velocity hcond
  refine ⟨by rw [hr], by rw [hr], ?_, ?_, ?_⟩
  · rw [hr]
    exact Vec3.split_horizontal_dot_up velocity.linvel up hup
  · rw [hr]
    exact Vec3.split_horizontal_idem velocity.linvel up hup
  · intro c
    rw [apply_jumping_requested_grounded dt mass up jump grounded force
      { velocity with linvel := velocity.linvel + c • up } hcond, hr]
    exact Vec3.split_horizontal_add_up velocity.linvel up c hup

/-- Witness for C1: `dt = 1`, `mass = 2`, `up = (0,1,0)`, launch speed 3,
grounded, pre-jump velocity `(1, -5, 0)`. -/
theorem C1_witness :
    (Vec3.dot ⟨0, 1, 0⟩ ⟨0, 1, 0⟩ = 1) ∧
    (let r := apply_jumping 1 ⟨true⟩ ⟨0, 0⟩ ⟨⟨1, -5, 0⟩, 0⟩ 2 ⟨3, true⟩ ⟨0, 1, 0⟩
     r.1.force = (⟨0, 0⟩ : ExternalForce).force + (⟨0, 1, 0⟩ : Vec3) * (2 : ℚ) * (3 : ℚ) / (1 : ℚ) ∧
     r.2.linvel = ((⟨⟨1, -5, 0⟩, 0⟩ : Velocity).linvel.split ⟨0, 1, 0⟩).horizontal ∧
     r.2.linvel.dot ⟨0, 1, 0⟩ = 0 ∧
     (r.2.linvel.split ⟨0, 1, 0⟩).horizontal
       = ((⟨⟨1, -5, 0⟩, 0⟩ : Velocity).linvel.split ⟨0, 1, 0⟩).horizontal ∧
     (∀ c : ℚ,
       (apply_jumping 1 ⟨true⟩ ⟨0, 0⟩
           { (⟨⟨1, -5, 0⟩, 0⟩ : Velocity) with
              linvel := (⟨⟨1, -5, 0⟩, 0⟩ : Velocity).linvel + c • ⟨0, 1, 0⟩ }
           2 ⟨3, true⟩ ⟨0, 1, 0⟩).2.linvel
         = r.2.linvel)) :=
  ⟨by norm_num [Vec3.dot],
   C1_apply_jumping_impulse 1 2 ⟨0, 1, 0⟩ ⟨3, true⟩ ⟨true⟩ ⟨0, 0⟩ ⟨⟨1, -5, 0⟩, 0⟩
     (by norm_num [Vec3.dot]) rfl rfl⟩

/-- C6: for every character with a jump requested but `grounded == false`,
`apply_jumping` leaves both the force accumulator and the linear velocity
unchanged (no queueing, no error — the function is total), and the request
flag is still cleared by `reset_movement_components` in the same tick. -/
theorem C6_airborne_jump_ignored (dt mass : ℚ) (up : Vec3) (jump : Jumping)
    (grounded : Grounded) (force : ExternalForce) (velocity : Velocity)
    (c : MovementComponents)
    (_hreq : jump.requested = true) (hgr : grounded.is_grounded = false) :
    apply_jumping dt grounded force velocity mass jump up = (force, velocity) ∧
    (reset_movement_components c).jumping.requested = false := by
  constructor
  · refine apply_jumping_not_engaged dt mass up jump grounded force velocity ?_
    rw [hgr]
    exact Bool.and_false _
  · rfl

/-- Witness for C6: an airborne character with a pending jump request and along
with it a full component set whose request the reset clears. -/
theorem C6_witness :
    apply_jumping 1 ⟨false⟩ ⟨0, 0⟩ ⟨⟨1, 2, 3⟩, 0⟩ 1 ⟨3, true⟩ ⟨0, 1, 0⟩
      = (⟨0, 0⟩, ⟨⟨1, 2, 3⟩, 0⟩) ∧
    (reset_movement_components
        ⟨default, default, ⟨8, some ⟨1, 0, 0⟩, 1, 2⟩, ⟨3, true⟩, ⟨3 / 2, false⟩⟩).jumping.requested
      = false :=
  C6_airborne_jump_ignored 1 1 ⟨0, 1, 0⟩ ⟨3, true⟩ ⟨false⟩ ⟨0, 0⟩ ⟨⟨1, 2, 3⟩, 0⟩
    ⟨default, default, ⟨8, some ⟨1, 0, 0⟩, 1, 2⟩, ⟨3, true⟩, ⟨3 / 2, false⟩⟩ rfl rfl

/-- C2 (amended): after `reset_movement_components` runs, the walk direction
is `None`, the jump request is cleared, the force and impulse accumulators
are zero, for every character regardless of what was read this tick; the
reset is idempotent and total.  `Sprinting.requested` however is NOT
cleared: the system holds no `Sprinting` query and leaves it unchanged. -/
theorem C2_reset_clears_intents (c : MovementComponents) :
    let r := reset_movement_components c
    r.walking.direction = none ∧
    r.jumping.requested = false ∧
    r.external_force.force = 0 ∧
    r.external_force = default ∧
    r.external_impulse = default ∧
    reset_movement_components r = r ∧
    r.sprinting = c.sprinting := by
  exact ⟨rfl, rfl, rfl, rfl, rfl, rfl, rfl⟩

/-- Counterexample for C2 as stated: a character whose sprint request is set
still has it set after Intent Reset, so "SprintIntent.requested == false
after Intent Reset" fails on the code. -/
theorem C2_counterexample :
    ¬ ((reset_movement_components
        ⟨default, default, ⟨8, none, 1, 1⟩, ⟨2, false⟩, ⟨3 / 2, true⟩⟩).sprinting.requested
      = false) := by
  simp [reset_movement_components]

/-- C5: on every completed (non-panicking) run, `update_grounded` sets
`grounded = true` when the shape cast reports a hit, leaves the flag
untouched when it does not, and never writes `grounded = false` — a
character whose grounded flag is true is never returned to airborne by the
detector. -/
theorem C5_update_grounded_monotone (names : ℕ → Option String)
    (cast_result : Option CastHit) (velocity : Velocity) (up : Vec3)
    (grounded grounded' : Grounded)
    (h : update_grounded names cast_result velocity up grounded = some grounded') :
    (cast_result = none → grounded' = grounded) ∧
    (∀ hit, cast_result = some hit → grounded'.grounded = true) ∧
    (grounded.grounded = true → grounded'.grounded = true) := by
  rcases cast_result with _ | hit
  · unfold update_grounded at h
    simp at h
    refine ⟨fun _ => h.symm, fun hit hc => Option.noConfusion hc, fun hg => ?_⟩
    rw [← h]
    exact hg
  · unfold update_grounded at h
    simp at h
    rcases hnm : names hit.entity with _ | nm
    · rw [hnm] at h
      exact Option.noConfusion h
    · rw [hnm] at h
      have h2 := Option.some.inj h
      refine ⟨fun hc => Option.noConfusion hc, fun hit2 _ => ?_, fun _ => ?_⟩ <;>
      · rw [← h2]
        rfl

/-- Witness for C5: a cast hit on a named entity grounds an airborne
character. -/
theorem C5_witness :
    update_grounded (fun _ => some "Ground") (some ⟨7, 1 / 2⟩) ⟨0, 0⟩ ⟨0, 1, 0⟩ ⟨false⟩
      = some ⟨true⟩ ∧
    ((some (⟨7, 1 / 2⟩ : CastHit) = none → (⟨true⟩ : Grounded) = ⟨false⟩) ∧
     (∀ hit, some (⟨7, 1 / 2⟩ : CastHit) = some hit → (⟨true⟩ : Grounded).grounded = true) ∧
     ((⟨false⟩ : Grounded).grounded = true → (⟨true⟩ : Grounded).grounded = true)) :=
  ⟨by simp [update_grounded, Grounded.force_set],
   C5_update_grounded_monotone (fun _ => some "Ground") (some ⟨7, 1 / 2⟩) ⟨0, 0⟩ ⟨0, 1, 0⟩
     ⟨false⟩ ⟨true⟩ (by simp [update_grounded, Grounded.force_set])⟩

/-- C10: whenever the shape cast reports a hit, `update_grounded` unwraps the
hit entity's `Name` before setting `grounded = true`; a hit entity without a
`Name` makes the unwrap panic (modelled as `none`), so a completed grounding
update on a hit requires the hit collider's entity to carry a `Name`. -/
theorem C10_grounding_requires_name (names : ℕ → Option String)
    (cast_result : Option CastHit) (velocity : Velocity) (up : Vec3)
    (grounded : Grounded) (hit : CastHit)
    (hhit : cast_result = some hit) :
    (names hit.entity = none →
      update_grounded names cast_result velocity up grounded = none) ∧
    (∀ grounded', update_grounded names cast_result velocity up grounded = some grounded' →
      (∃ nm, names hit.entity = some nm) ∧ grounded'.grounded = true) := by
  subst hhit
  constructor
  · intro hnm
    unfold update_grounded
    simp [hnm]
  · intro grounded' h
    unfold update_grounded at h
    simp at h
    rcases hnm : names hit.entity with _ | nm
    · rw [hnm] at h
      exact Option.noConfusion h
    · rw [hnm] at h
      have h2 := Option.some.inj h
      refine ⟨⟨nm, rfl⟩, ?_⟩
      rw [← h2]
      rfl

/-- Witness for C10: a hit on an entity with no `Name` makes the grounding
system panic. -/
theorem C10_witness :
    update_grounded (fun _ => none) (some ⟨5, 1⟩) ⟨0, 0⟩ ⟨0, 1, 0⟩ ⟨false⟩ = none :=
  (C10_grounding_requires_name (fun _ => none) (some ⟨5, 1⟩) ⟨0, 0⟩ ⟨0, 1, 0⟩ ⟨false⟩
    ⟨5, 1⟩ rfl).1 rfl

/-- Counterexample for C9 as stated: with launch speed `-4`, `dt = 1`,
`mass = 1`, up `(0,1,0)`, a grounded character with a jump request gets a
force derived from the negative value added to its accumulator — the
resolvers do not treat a negative speed as zero/no-op. -/
theorem C9_counterexample :
    (apply_jumping 1 ⟨true⟩ ⟨0, 0⟩ ⟨⟨0, 0, 0⟩, 0⟩ 1 ⟨-4, true⟩ ⟨0, 1, 0⟩).1.force
      ≠ (⟨0, 0⟩ : ExternalForce).force := by
  rw [apply_jumping_requested_grounded 1 1 ⟨0, 1, 0⟩ ⟨-4, true⟩ ⟨true⟩ ⟨0, 0⟩
    ⟨⟨0, 0, 0⟩, 0⟩ rfl]
  norm_num [Vec3.ext_iff]

/-- C9 (amended): a negative launch speed raises no error — `apply_jumping`
is total — but it is not treated as zero: the resolver adds the exact force
`up * mass * speed / dt` computed from the negative speed, whose component
along `up` is negative (a downward push), and still zeroes the vertical
velocity. -/
theorem C9_negative_speed_force_applied (dt mass : ℚ) (up : Vec3) (jump : Jumping)
    (grounded : Grounded) (force : ExternalForce) (velocity : Velocity)
    (hreq : jump.requested = true) (hgr : grounded.is_grounded = true)
    (hneg : jump.speed < 0) (hdt : 0 < dt) (hm : 0 < mass) (hup : up.dot up = 1) :
    let r := apply_jumping dt grounded force velocity mass jump up
    r.1.force = force.force + up * mass * jump.speed / dt ∧
    (r.1.force - force.force).dot up = mass * jump.speed / dt ∧
    (r.1.force - force.force).dot up < 0 ∧
    r.2.linvel = (velocity.linvel.split up).horizontal := by
  intro r
  have hcond : (jump.requested && grounded.is_grounded) = true := by
    rw [hreq, hgr]
    rfl
  have hr : r = ({ force with force := force.force + up * mass * jump.speed / dt },
      { velocity with linvel := (velocity.linvel.split up).horizontal }) :=
    apply_jumping_requested_grounded dt mass up jump grounded force velocity hcond
  have hdot : ((force.force + up * mass * jump.speed / dt) - force.force).dot up
      = mass * jump.speed / dt := by
    simp only [Vec3.dot, Vec3.sub_def, Vec3.add_def, Vec3.mul_scalar_def,
      Vec3.div_scalar_def] at *
    linear_combination (mass * jump.speed / dt) * hup
  have hneg' : mass * jump.speed / dt < 0 :=
    div_neg_of_neg_of_pos (mul_neg_of_pos_of_neg hm hneg) hdt
  refine ⟨by rw [hr], ?_, ?_, by rw [hr]⟩
  · rw [hr]
    exact hdot
  · rw [hr]
    show ((force.force + up * mass * jump.speed / dt) - force.force).dot up < 0
    rw [hdot]
    exact hneg'

/-- Witness for C9 (amended): launch speed `-4`, `dt = 2`, `mass = 3`. -/
theorem C9_witness :
    ((-4 : ℚ) < 0 ∧ (0 : ℚ) < 2 ∧ (0 : ℚ) < 3) ∧
    (let r := apply_jumping 2 ⟨true⟩ ⟨0, 0⟩ ⟨⟨1, 2, 3⟩, 0⟩ 3 ⟨-4, true⟩ ⟨0, 1, 0⟩
     r.1.force = (⟨0, 0⟩ : ExternalForce).force + (⟨0, 1, 0⟩ : Vec3) * (3 : ℚ) * (-4 : ℚ) / (2 : ℚ) ∧
     (r.1.force - (⟨0, 0⟩ : ExternalForce).force).dot ⟨0, 1, 0⟩ = (3 : ℚ) * (-4 : ℚ) / (2 : ℚ) ∧
     (r.1.force - (⟨0, 0⟩ : ExternalForce).force).dot ⟨0, 1, 0⟩ < 0 ∧
     r.2.linvel = ((⟨⟨1, 2, 3⟩, 0⟩ : Velocity).linvel.split ⟨0, 1, 0⟩).horizontal) :=
  ⟨⟨by norm_num, by norm_num, by norm_num⟩,
   C9_negative_speed_force_applied 2 3 ⟨0, 1, 0⟩ ⟨-4, true⟩ ⟨true⟩ ⟨0, 0⟩ ⟨⟨1, 2, 3⟩, 0⟩
     rfl rfl (by norm_num) (by norm_num) (by norm_num) (by norm_num [Vec3.dot])⟩

/-- C3 (amended): if a character's animation-player back-reference is missing
or dangling, `play_animations` fails with a reported error for the tick (the
`Err` is piped to the error logger rather than panicking), but the failure
aborts the iteration: whatever `rest` of the characters follows the failing
one, the system returns the error without processing them. -/
theorem C3_missing_player_aborts (store : PlayerStore) (c : AnimCharacter)
    (rest : List AnimCharacter)
    (hmiss : lookupPlayer store c.animation_entity_link = none) :
    play_animations store (c :: rest)
      = Except.error "animation_entity_link held entity without animation player" := by
  unfold play_animations
  rw [hmiss]

/-- Witness for C3 (amended): entity 1 has no animation player in the store. -/
theorem C3_witness :
    lookupPlayer [(2, ⟨none⟩)]
        (AnimCharacter.animation_entity_link ⟨⟨0, 0⟩, ⟨0, 1, 0⟩, ⟨false⟩, 1, ⟨10, 11, 12⟩⟩)
      = none ∧
    play_animations [(2, ⟨none⟩)]
      [⟨⟨0, 0⟩, ⟨0, 1, 0⟩, ⟨false⟩, 1, ⟨10, 11, 12⟩⟩,
       ⟨⟨0, 0⟩, ⟨0, 1, 0⟩, ⟨false⟩, 2, ⟨10, 11, 12⟩⟩]
      = Except.error "animation_entity_link held entity without animation player" :=
  ⟨rfl,
   C3_missing_player_aborts [(2, ⟨none⟩)] ⟨⟨0, 0⟩, ⟨0, 1, 0⟩, ⟨false⟩, 1, ⟨10, 11, 12⟩⟩
     [⟨⟨0, 0⟩, ⟨0, 1, 0⟩, ⟨false⟩, 2, ⟨10, 11, 12⟩⟩] rfl⟩

/-- Counterexample for C3 as stated: with a dangling back-reference on the
first character, the whole system returns the error and the second
character's animation player is never driven — processed alone, the same
second character does get its clip played.  The per-entity failure does
abort animation processing of the remaining characters. -/
theorem C3_counterexample :
    play_animations [(2, ⟨none⟩)]
      [⟨⟨0, 0⟩, ⟨0, 1, 0⟩, ⟨false⟩, 1, ⟨10, 11, 12⟩⟩,
       ⟨⟨0, 0⟩, ⟨0, 1, 0⟩, ⟨false⟩, 2, ⟨10, 11, 12⟩⟩]
      = Except.error "animation_entity_link held entity without animation player" ∧
    play_animations [(2, ⟨none⟩)]
      [⟨⟨0, 0⟩, ⟨0, 1, 0⟩, ⟨false⟩, 2, ⟨10, 11, 12⟩⟩]
      = Except.ok [(2, ⟨some 12⟩)] :=
  ⟨rfl, rfl⟩

/-- C7: animation selection is a pure function of the grounded flag and the
horizontal speed: not grounded selects the aerial clip; grounded with
approximately nonzero horizontal speed selects the walk clip; otherwise the
idle clip; and any two inputs agreeing on the grounded flag and on the
squared horizontal speed select the same clip — no hidden state. -/
theorem C7_animation_selection_pure (velocity : Velocity) (up : Vec3)
    (grounded : Grounded) (animations : CharacterAnimations) :
    (grounded.is_grounded = false →
      animationClip velocity up grounded animations = animations.aerial) ∧
    (grounded.is_grounded = true →
      (velocity.linvel.split up).horizontal.is_approx_zero = false →
      animationClip velocity up grounded animations = animations.walk) ∧
    (grounded.is_grounded = true →
      (velocity.linvel.split up).horizontal.is_approx_zero = true →
      animationClip velocity up grounded animations = animations.idle) ∧
    (∀ (velocity' : Velocity) (up' : Vec3) (grounded' : Grounded),
      grounded'.is_grounded = grounded.is_grounded →
      (velocity'.linvel.split up').horizontal.length_squared
        = (velocity.linvel.split up).horizontal.length_squared →
      animationClip velocity' up' grounded' animations
        = animationClip velocity up grounded animations) := by
  refine ⟨?_, ?_, ?_, ?_⟩
  · intro hg
    simp [animationClip, hg]
  · intro hg hz
    simp [animationClip, hg, hz]
  · intro hg hz
    simp [animationClip, hg, hz]
  · intro velocity' up' grounded' hg hlen
    simp only [animationClip, Vec3.is_approx_zero, hlen, hg]

/-- No declared ordering edge targets `reset_movement_components`: the plugin
adds it with no `before`/`after` annotation and it belongs to no configured
set. -/
theorem no_edge_into_reset (a : SystemNode) :
    (a, SystemNode.resetMovementComponentsSystem) ∉ declared_edges := by
  cases a <;> decide

/-- C8 (amended): among the ordering constraints declared in the source, the
Grounding Detector is ordered before the walking Force Resolver, the
`GeneralMovement` set before the `PlayAnimation` set, and the camera update
after the physics writeback and before final transform propagation. -/
theorem C8_declared_order :
    (SystemNode.updateGroundedSystem, SystemNode.applyWalkingSystem) ∈ declared_edges ∧
    declared_before SystemNode.generalMovement SystemNode.playAnimation ∧
    declared_before SystemNode.physicsWriteback SystemNode.cameraUpdate ∧
    declared_before SystemNode.cameraUpdate SystemNode.transformPropagate ∧
    declared_before SystemNode.physicsWriteback SystemNode.transformPropagate :=
  ⟨by decide,
   Relation.TransGen.single (by decide),
   Relation.TransGen.single (by decide),
   Relation.TransGen.single (by decide),
   Relation.TransGen.tail (Relation.TransGen.single
     (show (SystemNode.physicsWriteback, SystemNode.cameraUpdate) ∈ declared_edges by decide))
     (by decide)⟩

/-- Counterexample for C8 as stated: no declared constraint orders Intent
Reset (`reset_movement_components`) after the Animation Selector
(`play_animations`) nor after the physics writeback — the transitive closure
of the declared edges relates neither pair. -/
theorem C8_counterexample :
    ¬ declared_before SystemNode.playAnimationsSystem
        SystemNode.resetMovementComponentsSystem ∧
    ¬ declared_before SystemNode.physicsWriteback
        SystemNode.resetMovementComponentsSystem := by
  constructor <;>
  · intro h
    unfold declared_before at h
    cases h with
    | single h' => exact no_edge_into_reset _ h'
    | tail _ h' => exact no_edge_into_reset _ h'

/-- C4: for every grounded character whose walk direction is `None` this
tick: if the squared horizontal speed is below the squared stopping
threshold, the velocity is snapped to its vertical split part, leaving the
post-tick horizontal velocity exactly zero and the force accumulator
untouched; otherwise, whenever the horizontal velocity normalizes to a unit
positive multiple `n` of itself, a braking force of squared magnitude
`(braking_acceleration * mass)²` directed opposite the horizontal velocity
is appended to the force accumulator and the velocity is untouched. -/
theorem C4_walking_stop_or_brake (try_normalize : Vec3 → Option Vec3)
    (force : ExternalForce) (walking : Walking) (velocity : Velocity)
    (grounded : Grounded) (mass : ℚ) (up : Vec3)
    (hup : up.dot up = 1) (hdir : walking.direction = none)
    (hgr : grounded.is_grounded = true) :
    let r := apply_walking try_normalize force walking velocity grounded mass up
    let h := (velocity.linvel.split up).horizontal
    (h.length_squared < walking.stopping_speed * walking.stopping_speed →
      r.1 = force ∧
      r.2.linvel = (velocity.linvel.split up).vertical ∧
      (r.2.linvel.split up).horizontal = 0) ∧
    (¬ h.length_squared < walking.stopping_speed * walking.stopping_speed →
      ∀ (n : Vec3) (k : ℚ), try_normalize h = some n → 0 < k → n = k • h → n.dot n = 1 →
        r.1.force = force.force + walking.braking_acceleration * (-n) * mass ∧
        r.2 = velocity ∧
        (r.1.force - force.force).length_squared
          = (walking.braking_acceleration * mass) * (walking.braking_acceleration * mass) ∧
        (0 < walking.braking_acceleration → 0 < mass →
          (r.1.force - force.force).dot h < 0)) := by
  intro r h
  have hacc : walking.get_acceleration grounded.is_grounded = none := by
    simp [Walking.get_acceleration, hdir]
  constructor
  · intro hlt
    have hr : r = (force, { velocity with linvel := (velocity.linvel.split up).vertical }) :=
      apply_walking_snap try_normalize force walking velocity grounded mass up hacc hgr hlt
    refine ⟨by rw [hr], by rw [hr], ?_⟩
    rw [hr]
    exact Vec3.split_vertical_horizontal velocity.linvel up hup
  · intro hge n k hn hk hnk hn1
    have hr : r = ({ force with
        force := force.force + walking.braking_acceleration * (-n) * mass }, velocity) :=
      apply_walking_brake try_normalize force walking velocity grounded mass up n
        hacc hgr hge hn
    have hdiff : r.1.force - force.force
        = (walking.braking_acceleration * mass) • (-n) := by
      rw [hr]
      show (force.force + walking.braking_acceleration * (-n) * mass) - force.force
          = (walking.braking_acceleration * mass) • (-n)
      simp only [Vec3.add_def, Vec3.sub_def, Vec3.scalar_mul_def, Vec3.mul_scalar_def,
        Vec3.neg_def, Vec3.smul_def, Vec3.mk.injEq]
      refine ⟨by ring, by ring, by ring⟩
    have hn1' : k * (k * (h.dot h)) = 1 := by
      rw [hnk, Vec3.smul_dot, Vec3.dot_smul] at hn1
      exact hn1
    have hhpos : 0 < h.dot h := by
      nlinarith [Vec3.dot_self_nonneg h, mul_pos hk hk]
    refine ⟨by rw [hr], by rw [hr], ?_, ?_⟩
    · rw [Vec3.length_squared_def, hdiff, Vec3.smul_dot, Vec3.dot_smul, Vec3.neg_dot_neg,
        hn1]
      ring
    · intro hb hm
      rw [hdiff, Vec3.smul_dot, Vec3.neg_dot, hnk, Vec3.smul_dot]
      nlinarith [mul_pos (mul_pos hb hm) (mul_pos hk hhpos)]

/-- A concrete stand-in for glam's `try_normalize`, defined only at
`(1, 0, 0)`; used by the C4 witness. -/
def unitNormalizer : Vec3 → Option Vec3 :=
  fun v => if v = ⟨1, 0, 0⟩ then some ⟨1, 0, 0⟩ else none

/-- Witness for C4: both branches at concrete inputs — a slow grounded
character `(1/10, 5, 0)` is snapped to `(0, 5, 0)`, a fast one `(1, 7, 0)`
gets the braking force `2 * (-(1,0,0)) * 3` appended. -/
theorem C4_witness :
    (let r := apply_walking unitNormalizer ⟨0, 0⟩ ⟨8, none, 1 / 2, 2⟩ ⟨⟨1 / 10, 5, 0⟩, 0⟩
        ⟨true⟩ 3 ⟨0, 1, 0⟩
     r.1 = (⟨0, 0⟩ : ExternalForce) ∧
     r.2.linvel = ((⟨⟨1 / 10, 5, 0⟩, 0⟩ : Velocity).linvel.split ⟨0, 1, 0⟩).vertical ∧
     (r.2.linvel.split ⟨0, 1, 0⟩).horizontal = 0) ∧
    (let r := apply_walking unitNormalizer ⟨0, 0⟩ ⟨8, none, 1 / 2, 2⟩ ⟨⟨1, 7, 0⟩, 0⟩
        ⟨true⟩ 3 ⟨0, 1, 0⟩
     r.1.force = (⟨0, 0⟩ : ExternalForce).force + (2 : ℚ) * (-(⟨1, 0, 0⟩ : Vec3)) * (3 : ℚ) ∧
     r.2 = (⟨⟨1, 7, 0⟩, 0⟩ : Velocity) ∧
     (r.1.force - (⟨0, 0⟩ : ExternalForce).force).length_squared
       = ((2 : ℚ) * (3 : ℚ)) * ((2 : ℚ) * (3 : ℚ)) ∧
     ((0 : ℚ) < 2 → (0 : ℚ) < 3 →
       (r.1.force - (⟨0, 0⟩ : ExternalForce).force).dot
         (((⟨⟨1, 7, 0⟩, 0⟩ : Velocity).linvel.split ⟨0, 1, 0⟩).horizontal) < 0)) :=
  ⟨(C4_walking_stop_or_brake unitNormalizer ⟨0, 0⟩ ⟨8, none, 1 / 2, 2⟩ ⟨⟨1 / 10, 5, 0⟩, 0⟩
      ⟨true⟩ 3 ⟨0, 1, 0⟩ (by norm_num [Vec3.dot]) rfl rfl).1
    (by norm_num [Vec3.split, Vec3.dot, Vec3.length_squared]),
   (C4_walking_stop_or_brake unitNormalizer ⟨0, 0⟩ ⟨8, none, 1 / 2, 2⟩ ⟨⟨1, 7, 0⟩, 0⟩
      ⟨true⟩ 3 ⟨0, 1, 0⟩ (by norm_num [Vec3.dot]) rfl rfl).2
    (by norm_num [Vec3.split, Vec3.dot, Vec3.length_squared]) ⟨1, 0, 0⟩ 1
    (by norm_num [unitNormalizer, Vec3.split, Vec3.dot, Vec3.ext_iff])
    (by norm_num)
    (by norm_num [Vec3.split, Vec3.dot, Vec3.ext_iff])
    (by norm_num [Vec3.dot])⟩

end Foxtrot
